import Mathlib

/-!
# SarvSaathi — client-side authentication/session lifecycle and token refresh

A shallow embedding of the SarvSaathi frontend's authentication core:

* the axios module (`api.js`, exporting the `api` instance with its request and
  response interceptors) — file `src/frontend/src/api.js`;
* the session manager (`src/frontend/src/context/AuthContext.js`, the
  `AuthProvider` component with `checkAuth`, `login`, `register`, `sendOTP`,
  `verifyOTP` and `logout`).

Modelling conventions:

* `localStorage` is modelled by `Store`, a record of exactly the three keys the
  auth code touches (`access_token`, `refresh_token`, `user`); the serialized
  user is modelled as an already-parsed `UserData` (the `JSON.stringify` /
  `JSON.parse` round trip is modelled as the identity).
* Network exchanges are inputs: each operation takes the outcome of its awaited
  HTTP call (`Except ApiError resp`), since the server is outside the client.
* JS exceptions are modelled with `Except`: each `async` operation's `try`
  block is an `Except`-valued computation paired with the state reached when it
  ends (state changes made before a throw persist), and the `catch` handler is
  applied by `jsTryCatch`.
* The platform's `atob` + `JSON.parse` decoding of the JWT payload (which can
  throw a `SyntaxError`) is a parameter `decode : String → Except Unit JwtPayload`.
* JS truthiness of `a || b` on a string-or-absent `a` is `jsOrStr`: an absent
  value and the empty string both fall through to `b`.
-/

namespace SarvSaathi

/-- The decoded payload of an access JWT, as read by `login`
(`payload.user_id` and the optional role claim `payload.user_type`). -/
structure JwtPayload where
  user_id : Nat
  user_type : Option String
deriving Repr, DecidableEq

/-- The user object built by `login` and cached under the `user` key
(`{ id, email, user_type }` in `AuthContext.js`). -/
structure UserData where
  id : Nat
  email : String
  user_type : String
deriving Repr, DecidableEq

/-- The three `localStorage` entries the auth code reads and writes:
`access_token`, `refresh_token` and `user`. `none` models an absent key. -/
structure Store where
  access_token : Option String
  refresh_token : Option String
  user : Option UserData
deriving Repr, DecidableEq

/-- The store after `removeItem` on all three keys. -/
def emptyStore : Store :=
  { access_token := none, refresh_token := none, user := none }

/-- The error-response body shapes the catch handlers inspect
(`error.response?.data?.detail`, `.message`, `.error`, `.email?.[0]`,
`.otp_code?.[0]`). All fields are optional, as in a JS object. -/
structure ErrData where
  detail : Option String
  message : Option String
  error : Option String
  email : Option (List String)
  otp_code : Option (List String)
deriving Repr, DecidableEq

/-- A rejected axios promise: either an HTTP error response carrying a body,
or a transport failure with no `response` field. -/
inductive ApiError where
  | response (data : ErrData)
  | transport
deriving Repr, DecidableEq

/-- A JS exception reaching a `catch` block in `AuthContext.js`: a rejected
API call, or a `SyntaxError` thrown by `atob` / `JSON.parse` while decoding
the access token (such an error has no `response` field). -/
inductive JsErr where
  | api (e : ApiError)
  | decodeFail
deriving Repr, DecidableEq

/-- `error.response?.data` — the optional error body of a caught exception. -/
def JsErr.respData : JsErr → Option ErrData
  | JsErr.api (ApiError.response d) => some d
  | _ => none

/-- JS `a || b` where `a` is a possibly-absent string: `undefined` and the
empty string are falsy and fall through to `b`. -/
def jsOrStr : Option String → String → String
  | some s, b => if s = "" then b else s
  | none, b => b

/-- `xs?.[0]` on a possibly-absent JS array: the first element, if any. -/
def jsIndex0 : Option (List String) → Option String
  | some (x :: _) => some x
  | _ => none

/-- The uniform result object the auth operations return to the UI:
`success` is always present; `error`, `message` and `otp_code` are the
optional extra fields the various operations attach. -/
structure OpResult where
  success : Bool
  error : Option String
  message : Option String
  otp_code : Option String
deriving Repr, DecidableEq

/-- The session manager's state: the persisted store plus the in-memory React
state (`user`, `isAuthenticated`, `loading`). -/
structure AuthState where
  store : Store
  user : Option UserData
  isAuthenticated : Bool
  loading : Bool
deriving Repr, DecidableEq

/-- The state of a freshly mounted `AuthProvider` over a given persisted
store: `useState(null)`, `useState(false)`, `useState(true)`. -/
def startupState (store : Store) : AuthState :=
  { store := store, user := none, isAuthenticated := false, loading := true }

/-- `logout` (`AuthContext.js` lines 147–153): removes the three persisted
keys and resets the in-memory state. A straight-line sequence of assignments:
it cannot fail. -/
def logout (st : AuthState) : AuthState :=
  { store := emptyStore, user := none, isAuthenticated := false,
    loading := st.loading }

/-- `checkAuth` (`AuthContext.js` lines 20–53), the startup validation run on
mount. `healthOutcome` is the observed outcome of `authAPI.healthCheck()` and
`refreshOutcome` that of `authAPI.refreshToken(refreshToken)` (the new access
token on success). Sets `loading` to `false` at the end. -/
def checkAuth (healthOutcome : Except ApiError Unit)
    (refreshOutcome : Except ApiError String) (st : AuthState) : AuthState :=
  let st1 :=
    match st.store.access_token, st.store.user with
    | some _, some savedUser =>
      match healthOutcome with
      | Except.ok _ =>
        { st with user := some savedUser, isAuthenticated := true }
      | Except.error _ =>
        match st.store.refresh_token with
        | some _ =>
          match refreshOutcome with
          | Except.ok access =>
            { st with
              store := { st.store with access_token := some access },
              user := some savedUser, isAuthenticated := true }
          | Except.error _ => logout st
        | none => logout st
    | _, _ => st
  { st1 with loading := false }

/-- A `try { body } catch (e) { handler }` around a whole operation body:
the body's thrown error (if any) is handed to the handler together with the
state reached at the throw. -/
def jsTryCatch (body : Except JsErr OpResult × AuthState)
    (handler : JsErr → AuthState → Except JsErr (OpResult × AuthState)) :
    Except JsErr (OpResult × AuthState) :=
  match body with
  | (Except.ok r, st) => Except.ok (r, st)
  | (Except.error e, st) => handler e st

/-- The body of the `/token/` response destructured by `login`:
`const { access, refresh } = response.data`. -/
structure TokenResponse where
  access : String
  refresh : String
deriving Repr, DecidableEq

/-- The `try` block of `login` (`AuthContext.js` lines 56–77): awaits the
token endpoint (`outcome`), stores BOTH tokens, then decodes the access
token's payload (which may throw), builds the user object with the
`payload.user_type || 'patient'` default, caches it and flips the in-memory
state. Note the two token writes happen before the decode. -/
def loginTry (decode : String → Except Unit JwtPayload)
    (outcome : Except ApiError TokenResponse) (email : String)
    (st : AuthState) : Except JsErr OpResult × AuthState :=
  match outcome with
  | Except.error e => (Except.error (JsErr.api e), st)
  | Except.ok resp =>
    let st1 : AuthState :=
      { st with store :=
        { access_token := some resp.access, refresh_token := some resp.refresh,
          user := st.store.user } }
    match decode resp.access with
    | Except.error _ => (Except.error JsErr.decodeFail, st1)
    | Except.ok payload =>
      let userData : UserData :=
        { id := payload.user_id, email := email,
          user_type := jsOrStr payload.user_type "patient" }
      (Except.ok
        { success := true, error := none, message := none, otp_code := none },
       { st1 with
         store := { st1.store with user := some userData },
         user := some userData, isAuthenticated := true })

/-- `login` (`AuthContext.js` lines 56–84): the `try` block wrapped in the
`catch` that maps the error to
`error.response?.data?.detail || error.response?.data?.message || 'Login failed. Please check your credentials.'`. -/
def login (decode : String → Except Unit JwtPayload)
    (outcome : Except ApiError TokenResponse) (email : String)
    (st : AuthState) : Except JsErr (OpResult × AuthState) :=
  jsTryCatch (loginTry decode outcome email st)
    (fun e st2 =>
      Except.ok
        ({ success := false,
           error := some (jsOrStr (e.respData.bind ErrData.detail)
             (jsOrStr (e.respData.bind ErrData.message)
               "Login failed. Please check your credentials.")),
           message := none, otp_code := none }, st2))

/-- The `try` block of `register` (`AuthContext.js` lines 87–97): awaits
`registerWithOTP` (`regOutcome`), then returns the result of `login` — a
rejection of the awaited inner `login` promise would rethrow here. -/
def registerTry (decode : String → Except Unit JwtPayload)
    (regOutcome : Except ApiError Unit)
    (loginOutcome : Except ApiError TokenResponse) (email : String)
    (st : AuthState) : Except JsErr OpResult × AuthState :=
  match regOutcome with
  | Except.error e => (Except.error (JsErr.api e), st)
  | Except.ok _ =>
    match login decode loginOutcome email st with
    | Except.ok (r, st2) => (Except.ok r, st2)
    | Except.error e => (Except.error e, st)

/-- `register` (`AuthContext.js` lines 87–105): `registerTry` wrapped in the
`catch` mapping the error to
`email?.[0] || otp_code?.[0] || detail || 'Registration failed. Please try again.'`. -/
def register (decode : String → Except Unit JwtPayload)
    (regOutcome : Except ApiError Unit)
    (loginOutcome : Except ApiError TokenResponse) (email : String)
    (st : AuthState) : Except JsErr (OpResult × AuthState) :=
  jsTryCatch (registerTry decode regOutcome loginOutcome email st)
    (fun e st2 =>
      Except.ok
        ({ success := false,
           error := some (jsOrStr (jsIndex0 (e.respData.bind ErrData.email))
             (jsOrStr (jsIndex0 (e.respData.bind ErrData.otp_code))
               (jsOrStr (e.respData.bind ErrData.detail)
                 "Registration failed. Please try again."))),
           message := none, otp_code := none }, st2))

/-- The body of the `/accounts/send-otp/` success response read by `sendOTP`:
`response.data.message` and the (possibly absent) debug `response.data.otp_code`. -/
structure SendOtpResp where
  message : String
  otp_code : Option String
deriving Repr, DecidableEq

/-- The `try` block of `sendOTP` (`AuthContext.js` lines 108–120): on success
it returns `{ success: true, message, otp_code }`, copying the server's debug
`otp_code` into the result with no condition of any kind. -/
def sendOTPTry (outcome : Except ApiError SendOtpResp) (st : AuthState) :
    Except JsErr OpResult × AuthState :=
  match outcome with
  | Except.error e => (Except.error (JsErr.api e), st)
  | Except.ok resp =>
    (Except.ok
      { success := true, error := none, message := some resp.message,
        otp_code := resp.otp_code }, st)

/-- `sendOTP` (`AuthContext.js` lines 108–127): the `try` block wrapped in the
`catch` mapping the error to
`detail || error || 'Failed to send OTP. Please try again.'`. The source
consults no build/environment configuration anywhere in this function. -/
def sendOTP (outcome : Except ApiError SendOtpResp) (st : AuthState) :
    Except JsErr (OpResult × AuthState) :=
  jsTryCatch (sendOTPTry outcome st)
    (fun e st2 =>
      Except.ok
        ({ success := false,
           error := some (jsOrStr (e.respData.bind ErrData.detail)
             (jsOrStr (e.respData.bind ErrData.error)
               "Failed to send OTP. Please try again.")),
           message := none, otp_code := none }, st2))

/-- The body of the `/accounts/verify-otp/` success response read by
`verifyOTP`: `response.data.verified` and `response.data.message`. -/
structure VerifyOtpResp where
  verified : Bool
  message : String
deriving Repr, DecidableEq

/-- The `try` block of `verifyOTP` (`AuthContext.js` lines 130–137): returns
`{ success: response.data.verified, message: response.data.message }`. -/
def verifyOTPTry (outcome : Except ApiError VerifyOtpResp) (st : AuthState) :
    Except JsErr OpResult × AuthState :=
  match outcome with
  | Except.error e => (Except.error (JsErr.api e), st)
  | Except.ok resp =>
    (Except.ok
      { success := resp.verified, error := none, message := some resp.message,
        otp_code := none }, st)

/-- `verifyOTP` (`AuthContext.js` lines 130–144): the `try` block wrapped in
the `catch` mapping the error to
`message || detail || 'OTP verification failed.'`. -/
def verifyOTP (outcome : Except ApiError VerifyOtpResp) (st : AuthState) :
    Except JsErr (OpResult × AuthState) :=
  jsTryCatch (verifyOTPTry outcome st)
    (fun e st2 =>
      Except.ok
        ({ success := false,
           error := some (jsOrStr (e.respData.bind ErrData.message)
             (jsOrStr (e.respData.bind ErrData.detail)
               "OTP verification failed.")),
           message := none, otp_code := none }, st2))

/-- The slice of an axios request config the response interceptor reads and
writes: the `_retry` marker (absent on a fresh request, modelled `false`). -/
structure AxiosRequest where
  retryMark : Bool
deriving Repr, DecidableEq

/-- What the response interceptor's error handler returns:
replay the original request with the refreshed token (`return api(originalRequest)`),
reject with the original error, or reject with the refresh error. -/
inductive HandlerAction where
  | retryRequest (newAccess : String)
  | rejectOriginal
  | rejectRefreshError
deriving Repr, DecidableEq

/-- The observable outcome of one run of the response interceptor's error
handler: the chosen action, the request config (with its `_retry` marker as
left by the handler), the store, whether `window.location.href = '/login'`
was executed, and how many `POST /token/refresh/` calls it made (0 or 1). -/
structure HandlerResult where
  action : HandlerAction
  request : AxiosRequest
  store : Store
  redirected : Bool
  refreshCalls : Nat
deriving Repr, DecidableEq

/-- The error branch of `api.interceptors.response.use` (`api.js` lines
222–257). `status` is `error.response?.status` (`none` for a transport error
with no response). `refreshOutcome` is the outcome of the raw
`axios.post('/token/refresh/')` exchange (the new access token on success);
it is consulted only when the handler actually fires that call. -/
def onResponseError (status : Option Nat) (req : AxiosRequest) (store : Store)
    (refreshOutcome : Except ApiError String) : HandlerResult :=
  if status == some 401 && !req.retryMark then
    let req2 : AxiosRequest := { retryMark := true }
    match store.refresh_token with
    | some _ =>
      match refreshOutcome with
      | Except.ok access =>
        { action := HandlerAction.retryRequest access, request := req2,
          store := { store with access_token := some access },
          redirected := false, refreshCalls := 1 }
      | Except.error _ =>
        { action := HandlerAction.rejectRefreshError, request := req2,
          store := emptyStore, redirected := true, refreshCalls := 1 }
    | none =>
      { action := HandlerAction.rejectOriginal, request := req2,
        store := store, redirected := false, refreshCalls := 0 }
  else
    { action := HandlerAction.rejectOriginal, request := req, store := store,
      redirected := false, refreshCalls := 0 }

/-- A server response to one attempt of a request sent through `api`:
success, or a failure with `error.response?.status`. -/
inductive HttpResp where
  | ok
  | fail (status : Option Nat)
deriving Repr, DecidableEq

/-- How the lifetime of one request through the `api` instance ends. -/
inductive RequestOutcome where
  | resolved
  | rejectedOriginal
  | rejectedRefreshError
  | noResponse
deriving Repr, DecidableEq

/-- Accumulated observation of one request's lifetime: final outcome, total
number of refresh calls made on its behalf, resulting store, and whether a
redirect to `/login` happened. -/
structure RunState where
  outcome : RequestOutcome
  refreshCalls : Nat
  store : Store
  redirected : Bool
deriving Repr, DecidableEq

/-- The lifetime of one request through the `api` instance: each element of
`responses` answers one attempt (the original send, then each interceptor
replay); `refreshes` answers the successive refresh calls; an exhausted list
is modelled as no response / a transport failure. -/
def runRequestAux : List HttpResp → List (Except ApiError String) →
    AxiosRequest → Store → Nat → Bool → RunState
  | [], _, _, store, n, red =>
    { outcome := RequestOutcome.noResponse, refreshCalls := n, store := store,
      redirected := red }
  | HttpResp.ok :: _, _, _, store, n, red =>
    { outcome := RequestOutcome.resolved, refreshCalls := n, store := store,
      redirected := red }
  | HttpResp.fail status :: rest, refreshes, req, store, n, red =>
    let h := onResponseError status req store
      (refreshes.headD (Except.error ApiError.transport))
    match h.action with
    | HandlerAction.retryRequest _ =>
      runRequestAux rest refreshes.tail h.request h.store
        (n + h.refreshCalls) (red || h.redirected)
    | HandlerAction.rejectOriginal =>
      { outcome := RequestOutcome.rejectedOriginal,
        refreshCalls := n + h.refreshCalls, store := h.store,
        redirected := red || h.redirected }
    | HandlerAction.rejectRefreshError =>
      { outcome := RequestOutcome.rejectedRefreshError,
        refreshCalls := n + h.refreshCalls, store := h.store,
        redirected := red || h.redirected }

/-- One request sent through `api`, starting from a fresh config (no `_retry`
marker, as axios creates it). -/
def runRequest (responses : List HttpResp)
    (refreshes : List (Except ApiError String)) (store : Store) : RunState :=
  runRequestAux responses refreshes { retryMark := false } store 0 false

/-- `n` in-flight requests that all received an HTTP 401 at the same time,
each carrying its own fresh config. The single-threaded event loop runs their
(independent) error handlers one after the other; `refreshes` answers the
refresh calls in the order they are fired, and a fired refresh consumes the
next answer. Returns the total number of `POST /token/refresh/` calls and the
resulting store. -/
def concurrent401s : Nat → List (Except ApiError String) → Store → Nat × Store
  | 0, _, store => (0, store)
  | Nat.succ k, refreshes, store =>
    let h := onResponseError (some 401) { retryMark := false } store
      (refreshes.headD (Except.error ApiError.transport))
    let rest := if h.refreshCalls == 0 then refreshes else refreshes.tail
    let p := concurrent401s k rest h.store
    (h.refreshCalls + p.fst, p.snd)

/-- A concrete stand-in for the platform `atob` + `JSON.parse` payload
decoding, used only to instantiate theorems at concrete tokens: two
well-formed tokens (one with a `user_type` claim, one without), everything
else malformed. -/
def sampleDecode : String → Except Unit JwtPayload :=
  fun s =>
    if s = "hdr.doctor.sig" then
      Except.ok { user_id := 7, user_type := some "doctor" }
    else if s = "hdr.norole.sig" then
      Except.ok { user_id := 5, user_type := none }
    else Except.error ()

/-! ## Theorems -/

/-- The JS `a || b` fallback is never the empty string when `b` is not. -/
theorem jsOrStr_ne_of_ne (a : Option String) (b : String) (hb : b ≠ "") :
    jsOrStr a b ≠ "" := by
  cases a with
  | none => exact hb
  | some s =>
    by_cases hs : s = ""
    · simp only [jsOrStr, if_pos hs]
      exact hb
    · simp only [jsOrStr, if_neg hs]
      exact hs

/-- Claim C8: `logout()` called from any session-manager state — including
the initializing one (`loading = true`) — is a total straight-line function
(it cannot fail), and afterwards all three Token Store entries are removed
and the session is unauthenticated (`user` is `none`, `authenticated` is
`false`). -/
theorem logout_clears_store_and_unauthenticates (st : AuthState) :
    (logout st).store.access_token = none ∧
    (logout st).store.refresh_token = none ∧
    (logout st).store.user = none ∧
    (logout st).user = none ∧
    (logout st).isAuthenticated = false := by
  simp [logout, emptyStore]

/-- Claim C9: when the token endpoint rejects (any error response or
transport failure), `login` returns `{success: false, error: msg}` with a
non-empty message, and both the Token Store and the in-memory session state
are returned exactly as they were before the call: a failed login writes
nothing. -/
theorem failed_login_atomic_no_writes
    (decode : String → Except Unit JwtPayload) (e : ApiError)
    (email : String) (st : AuthState) :
    ∃ msg : String, msg ≠ "" ∧
      login decode (Except.error e) email st =
        Except.ok ({ success := false, error := some msg, message := none,
                     otp_code := none }, st) := by
  refine ⟨_, ?_, rfl⟩
  exact jsOrStr_ne_of_ne _ _ (jsOrStr_ne_of_ne _ _ (by decide))

/-- Claim C6 (code bug): the source `sendOTP` copies the server's debug
`otp_code` into its result unconditionally — it consults no build or
environment configuration at all (the model takes an ignored configuration
flag to make that explicit), so in a production-configured build the raw OTP
code is still present in the result, contradicting the function's own
`// For development only - remove in production` comment. -/
theorem sendOTP_leaks_otp_code_in_every_configuration
    (_productionBuild : Bool) (st : AuthState) :
    sendOTP (Except.ok { message := "OTP sent successfully",
                         otp_code := some "123456" }) st =
      Except.ok ({ success := true, error := none,
                   message := some "OTP sent successfully",
                   otp_code := some "123456" }, st) := rfl

/-- Claim C2 (counterexample): a Token Store holding an access token and a
cached user but NO refresh token, together with a succeeding server probe,
ends the startup validation `Authenticated` — the code never consults the
refresh token on the probe's success path, so the claim's "never in
Authenticated" is false. -/
theorem startup_partial_tokenpair_can_authenticate :
    (checkAuth (Except.ok ()) (Except.error ApiError.transport)
      (startupState { access_token := some "acc", refresh_token := none,
                      user := some { id := 1, email := "e@x.com",
                                     user_type := "patient" } })).isAuthenticated = true := rfl

/-- Claim C2 (amended): if at startup the Token Store contains an access
token but no refresh token, the Session Manager ends `Unauthenticated`
provided the cached user entry is absent or the server probe rejects the
stored access token; (as the counterexample shows, when both a cached user
entry is present and the probe succeeds, it instead ends `Authenticated`
without consulting the refresh token). -/
theorem startup_no_refresh_token_unauthenticated
    (store : Store) (a : String) (health : Except ApiError Unit)
    (refreshOutcome : Except ApiError String)
    (hat : store.access_token = some a)
    (hrt : store.refresh_token = none)
    (h : store.user = none ∨ ∃ e, health = Except.error e) :
    (checkAuth health refreshOutcome (startupState store)).user = none ∧
    (checkAuth health refreshOutcome (startupState store)).isAuthenticated
      = false := by
  rcases h with hu | ⟨e, he⟩
  · simp [checkAuth, startupState, hat, hu]
  · cases hus : store.user with
    | none => simp [checkAuth, startupState, hat, hus]
    | some u => simp [checkAuth, startupState, logout, emptyStore, hat, hus,
        hrt, he]

/-- Witness for `startup_no_refresh_token_unauthenticated` at a concrete
store (access token present, refresh token absent, cached user present) and
a failing probe. -/
theorem startup_no_refresh_token_unauthenticated_witness :
    (checkAuth (Except.error ApiError.transport) (Except.ok "fresh")
      (startupState { access_token := some "acc", refresh_token := none,
                      user := some { id := 1, email := "e@x.com",
                                     user_type := "patient" } })).user = none ∧
    (checkAuth (Except.error ApiError.transport) (Except.ok "fresh")
      (startupState { access_token := some "acc", refresh_token := none,
                      user := some { id := 1, email := "e@x.com",
                                     user_type := "patient" } })).isAuthenticated = false :=
  startup_no_refresh_token_unauthenticated _ "acc" _ _ rfl rfl
    (Or.inr ⟨ApiError.transport, rfl⟩)

/-- Claim C1 (counterexample): two in-flight requests that both receive a 401
at the same time, against a store holding a refresh token and with both
refresh exchanges succeeding, produce TWO calls to the token-refresh
endpoint — not one: each request has its own `_retry` marker and there is no
shared in-flight refresh handle. -/
theorem concurrent_401s_two_requests_two_refresh_calls :
    (concurrent401s 2 [Except.ok "tok1", Except.ok "tok2"]
      { access_token := some "tok0", refresh_token := some "r0",
        user := none }).fst = 2 ∧
    (concurrent401s 2 [Except.ok "tok1", Except.ok "tok2"]
      { access_token := some "tok0", refresh_token := some "r0",
        user := none }).fst ≠ 1 :=
  ⟨rfl, by decide⟩

/-- Claim C1 (amended): the HTTP client performs one token-refresh call PER
concurrently-401ed request, not one in total: with a stored refresh token and
succeeding refresh exchanges, `n` requests that simultaneously receive a 401
produce exactly `n` refresh calls (each request still refreshes at most once,
but the requests do not share a single in-flight refresh). -/
theorem concurrent_401s_one_refresh_per_request
    (n : Nat) (refreshes : List (Except ApiError String)) (store : Store)
    (rt : String) (hrt : store.refresh_token = some rt)
    (hok : ∀ r ∈ refreshes, ∃ a, r = Except.ok a)
    (hlen : n ≤ refreshes.length) :
    (concurrent401s n refreshes store).fst = n := by
  induction n generalizing refreshes store with
  | zero => rfl
  | succ k ih =>
    cases refreshes with
    | nil => simp at hlen
    | cons r rs =>
      obtain ⟨a, ha⟩ := hok r (List.mem_cons_self r rs)
      subst ha
      simp [concurrent401s, onResponseError, hrt]
      have h2 := ih rs
        { access_token := some a, refresh_token := some rt,
          user := store.user } rfl
        (fun x hx => hok x (List.mem_cons_of_mem _ hx))
        (Nat.le_of_succ_le_succ hlen)
      omega

/-- Witness for `concurrent_401s_one_refresh_per_request` at two concurrent
401-ed requests with two succeeding refresh exchanges. -/
theorem concurrent_401s_one_refresh_per_request_witness :
    (concurrent401s 2 [Except.ok "a1", Except.ok "a2"]
      { access_token := some "t0", refresh_token := some "rt0",
        user := none }).fst = 2 :=
  concurrent_401s_one_refresh_per_request 2 _ _ "rt0" rfl
    (by
      intro r hr
      rcases List.mem_cons.mp hr with h | h
      · exact ⟨"a1", h⟩
      · exact ⟨"a2", List.mem_singleton.mp h⟩)
    (by decide)

/-- Once a request carries the `_retry` marker, the interceptor never fires
another refresh on its behalf: the remaining lifetime adds no refresh calls. -/
theorem runRequestAux_marked_no_refresh (responses : List HttpResp)
    (refreshes : List (Except ApiError String)) (store : Store) (n : Nat)
    (red : Bool) :
    (runRequestAux responses refreshes { retryMark := true } store n
      red).refreshCalls = n := by
  cases responses with
  | nil => rfl
  | cons head rest =>
    cases head with
    | ok => rfl
    | fail status => simp [runRequestAux, onResponseError]

/-- Claim C3: over the whole lifetime of any single request — whatever the
server's responses to the original send and to every replay, and whatever
the refresh outcomes — the token-refresh recovery runs at most once: after
one refresh-and-replay the replayed request carries the `_retry` marker, so
a second 401 propagates as a failure instead of triggering another refresh,
and no request can enter an infinite refresh loop. -/
theorem request_refreshed_at_most_once (responses : List HttpResp)
    (refreshes : List (Except ApiError String)) (store : Store) :
    (runRequest responses refreshes store).refreshCalls ≤ 1 := by
  cases responses with
  | nil => simp [runRequest, runRequestAux]
  | cons head rest =>
    cases head with
    | ok => simp [runRequest, runRequestAux]
    | fail status =>
      by_cases h401 : (status == some 401) = true
      · simp only [runRequest, runRequestAux, onResponseError, h401,
          Bool.not_false, Bool.and_true, Bool.true_and]
        cases hrt : store.refresh_token with
        | none => simp
        | some rt =>
          cases hro : refreshes.headD (Except.error ApiError.transport) with
          | ok a =>
            simp only [hro, if_true]
            rw [runRequestAux_marked_no_refresh]
          | error e => simp [hro]
      · simp [runRequest, runRequestAux, onResponseError, h401]

/-- Claim C4: when a 401-ed request's single refresh attempt fails, the
interceptor removes all three persisted session entries, executes the
redirect to the login entry point, and rejects with the refresh authorization
error (so the original caller receives it as the failure result); and the
startup validation the redirect leads to, run over the cleared store, leaves
the Session Manager logged out whatever the probe and refresh outcomes. -/
theorem refresh_failure_clears_session_and_redirects
    (req : AxiosRequest) (store : Store) (rt : String) (e : ApiError)
    (health : Except ApiError Unit) (refreshOutcome : Except ApiError String)
    (hreq : req.retryMark = false) (hrt : store.refresh_token = some rt) :
    (onResponseError (some 401) req store (Except.error e)).action =
        HandlerAction.rejectRefreshError ∧
    (onResponseError (some 401) req store (Except.error e)).store =
        emptyStore ∧
    (onResponseError (some 401) req store (Except.error e)).redirected =
        true ∧
    (checkAuth health refreshOutcome (startupState
        (onResponseError (some 401) req store (Except.error e)).store)).user
      = none ∧
    (checkAuth health refreshOutcome (startupState
        (onResponseError (some 401) req store
          (Except.error e)).store)).isAuthenticated = false := by
  simp [onResponseError, checkAuth, startupState, emptyStore, hreq, hrt]

/-- Witness for `refresh_failure_clears_session_and_redirects`: a fresh
request 401s, the store holds a refresh token, and the refresh exchange is
rejected by the server. -/
theorem refresh_failure_clears_session_and_redirects_witness :
    (onResponseError (some 401) { retryMark := false }
      { access_token := some "t0", refresh_token := some "r0", user := none }
      (Except.error ApiError.transport)).action =
        HandlerAction.rejectRefreshError ∧
    (onResponseError (some 401) { retryMark := false }
      { access_token := some "t0", refresh_token := some "r0", user := none }
      (Except.error ApiError.transport)).store = emptyStore ∧
    (onResponseError (some 401) { retryMark := false }
      { access_token := some "t0", refresh_token := some "r0", user := none }
      (Except.error ApiError.transport)).redirected = true ∧
    (checkAuth (Except.ok ()) (Except.ok "fresh") (startupState
      (onResponseError (some 401) { retryMark := false }
        { access_token := some "t0", refresh_token := some "r0",
          user := none } (Except.error ApiError.transport)).store)).user
      = none ∧
    (checkAuth (Except.ok ()) (Except.ok "fresh") (startupState
      (onResponseError (some 401) { retryMark := false }
        { access_token := some "t0", refresh_token := some "r0",
          user := none }
        (Except.error ApiError.transport)).store)).isAuthenticated = false :=
  refresh_failure_clears_session_and_redirects { retryMark := false }
    { access_token := some "t0", refresh_token := some "r0", user := none }
    "r0" ApiError.transport (Except.ok ()) (Except.ok "fresh") rfl rfl

/-- Claim C5: when the token endpoint succeeds with a decodable access token
whose payload carries a (non-empty) `user_type` role claim, `login` returns
`{success: true}`, persists both tokens and the derived user, authenticates
the session, and the exposed user's role equals the role claim embedded in
the access token. -/
theorem login_success_authenticates_with_role_claim
    (decode : String → Except Unit JwtPayload) (resp : TokenResponse)
    (email : String) (st : AuthState) (payload : JwtPayload) (role : String)
    (hdec : decode resp.access = Except.ok payload)
    (hrole : payload.user_type = some role) (hne : role ≠ "") :
    ∃ u : UserData, ∃ st2 : AuthState,
      login decode (Except.ok resp) email st =
        Except.ok ({ success := true, error := none, message := none,
                     otp_code := none }, st2) ∧
      st2.store.access_token = some resp.access ∧
      st2.store.refresh_token = some resp.refresh ∧
      st2.store.user = some u ∧ st2.user = some u ∧
      st2.isAuthenticated = true ∧
      u.user_type = role ∧ u.email = email ∧ u.id = payload.user_id := by
  have hu : jsOrStr payload.user_type "patient" = role := by
    rw [hrole]
    simp [jsOrStr, hne]
  refine ⟨{ id := payload.user_id, email := email, user_type := role }, ?_,
    ?_, ?_⟩
  · exact {
      store := { access_token := some resp.access,
                 refresh_token := some resp.refresh,
                 user := some { id := payload.user_id, email := email,
                                user_type := role } },
      user := some { id := payload.user_id, email := email,
                     user_type := role },
      isAuthenticated := true, loading := st.loading }
  · simp [login, loginTry, jsTryCatch, hdec, hu]
  · simp

/-- Witness for `login_success_authenticates_with_role_claim` using the
concrete decoder `sampleDecode` on a token carrying the role claim
`"doctor"`. -/
theorem login_success_authenticates_with_role_claim_witness :
    ∃ u : UserData, ∃ st2 : AuthState,
      login sampleDecode
          (Except.ok { access := "hdr.doctor.sig", refresh := "ref1" })
          "valid@x.com" (startupState emptyStore) =
        Except.ok ({ success := true, error := none, message := none,
                     otp_code := none }, st2) ∧
      st2.store.access_token = some "hdr.doctor.sig" ∧
      st2.store.refresh_token = some "ref1" ∧
      st2.store.user = some u ∧ st2.user = some u ∧
      st2.isAuthenticated = true ∧
      u.user_type = "doctor" ∧ u.email = "valid@x.com" ∧ u.id = 7 :=
  login_success_authenticates_with_role_claim sampleDecode
    { access := "hdr.doctor.sig", refresh := "ref1" } "valid@x.com"
    (startupState emptyStore) { user_id := 7, user_type := some "doctor" }
    "doctor" rfl rfl (by decide)

/-- Claim C10: when `login` succeeds with an access token whose decoded
payload carries no `user_type` claim, the persisted and exposed user's
`user_type` silently defaults to `"patient"` (the
`payload.user_type || 'patient'` fallback), rather than the operation
failing or storing an absent role. -/
theorem login_missing_role_claim_defaults_patient
    (decode : String → Except Unit JwtPayload) (resp : TokenResponse)
    (email : String) (st : AuthState) (payload : JwtPayload)
    (hdec : decode resp.access = Except.ok payload)
    (hrole : payload.user_type = none) :
    ∃ u : UserData, ∃ st2 : AuthState,
      login decode (Except.ok resp) email st =
        Except.ok ({ success := true, error := none, message := none,
                     otp_code := none }, st2) ∧
      st2.store.user = some u ∧ st2.user = some u ∧
      st2.isAuthenticated = true ∧
      u.user_type = "patient" := by
  have hu : jsOrStr payload.user_type "patient" = "patient" := by
    rw [hrole]
    rfl
  refine ⟨{ id := payload.user_id, email := email, user_type := "patient" },
    ?_, ?_, ?_⟩
  · exact {
      store := { access_token := some resp.access,
                 refresh_token := some resp.refresh,
                 user := some { id := payload.user_id, email := email,
                                user_type := "patient" } },
      user := some { id := payload.user_id, email := email,
                     user_type := "patient" },
      isAuthenticated := true, loading := st.loading }
  · simp [login, loginTry, jsTryCatch, hdec, hu]
  · simp

/-- Witness for `login_missing_role_claim_defaults_patient` using the
concrete decoder `sampleDecode` on a token with no `user_type` claim. -/
theorem login_missing_role_claim_defaults_patient_witness :
    ∃ u : UserData, ∃ st2 : AuthState,
      login sampleDecode
          (Except.ok { access := "hdr.norole.sig", refresh := "ref2" })
          "p@x.com" (startupState emptyStore) =
        Except.ok ({ success := true, error := none, message := none,
                     otp_code := none }, st2) ∧
      st2.store.user = some u ∧ st2.user = some u ∧
      st2.isAuthenticated = true ∧
      u.user_type = "patient" :=
  login_missing_role_claim_defaults_patient sampleDecode
    { access := "hdr.norole.sig", refresh := "ref2" } "p@x.com"
    (startupState emptyStore) { user_id := 5, user_type := none }
    rfl rfl

/-- A `try`/`catch` whose handler always returns normally resolves for every
body, whether or not the body throws. -/
theorem jsTryCatch_resolves (body : Except JsErr OpResult × AuthState)
    (handler : JsErr → AuthState → Except JsErr (OpResult × AuthState))
    (h : ∀ e st2, ∃ p, handler e st2 = Except.ok p) :
    ∃ p, jsTryCatch body handler = Except.ok p := by
  obtain ⟨r, st⟩ := body
  cases r with
  | ok v => exact ⟨(v, st), rfl⟩
  | error e => exact h e st

/-- Claim C7: for every possible outcome of the awaited network exchanges —
server success, error response with any body, or transport failure — each of
`login`, `register`, `sendOTP` and `verifyOTP` resolves normally with a
result of the uniform `{success: bool, error?: string}` shape (an
`OpResult`, whose `success` is a `Bool` and whose `error` is an optional
string by construction) and never surfaces a rejected promise or exception
to the calling UI code. -/
theorem auth_ops_return_uniform_results
    (decode : String → Except Unit JwtPayload)
    (loginOutcome : Except ApiError TokenResponse)
    (regOutcome : Except ApiError Unit)
    (sendOutcome : Except ApiError SendOtpResp)
    (verifyOutcome : Except ApiError VerifyOtpResp)
    (email : String) (st : AuthState) :
    (∃ p, login decode loginOutcome email st = Except.ok p) ∧
    (∃ p, register decode regOutcome loginOutcome email st = Except.ok p) ∧
    (∃ p, sendOTP sendOutcome st = Except.ok p) ∧
    (∃ p, verifyOTP verifyOutcome st = Except.ok p) := by
  refine ⟨?_, ?_, ?_, ?_⟩
  · exact jsTryCatch_resolves _ _ (fun e st2 => ⟨_, rfl⟩)
  · exact jsTryCatch_resolves _ _ (fun e st2 => ⟨_, rfl⟩)
  · exact jsTryCatch_resolves _ _ (fun e st2 => ⟨_, rfl⟩)
  · exact jsTryCatch_resolves _ _ (fun e st2 => ⟨_, rfl⟩)

end SarvSaathi
